import Mathlib

/-!
Shallow embedding of the CuboPago client (`src/cuboClient.ts`) and of the
example driver (`src/unnamed/part_000`, a test script that only calls the
client).

Modelling conventions, fixed once for the whole file:

* JavaScript numbers are modelled as exact rationals (`ℚ`); `Math.round` is
  the JS builtin "round half toward +∞", i.e. `⌊q + 1/2⌋`.  The
  `Number.isFinite` guard of `pay` is always satisfied in this model, since
  every rational is finite.
* JS strings are `String`; a field that may be `undefined` is an `Option`.
* JS truthiness on `string | undefined` values (`if (response.error)`,
  `response.message || …`): `undefined` and `""` are falsy, every other
  string is truthy.
* The open field bag of `PaymentData` (`[key: string]: any`) is a list of
  extra key/value pairs carried through verbatim.
* The JSON decoder (`JSON.parse`) and the HTTP transport (`axios.post`) are
  external effects; they enter the model as oracle parameters.  The four
  possible outcomes of the `axios.post` call are the constructors of
  `HttpOutcome`: a 2xx response carrying a body, a non-2xx response carrying
  a status code and a raw body, no response at all, and a failure to even
  dispatch the request.  Arbitrary JSON bodies of non-2xx responses are kept
  as raw strings.
* `pay` returns, besides its `ApiResponse`, the payload it actually posted
  (`none` when no HTTP request was attempted) so that claims about the
  outgoing payload can be stated.
* Object identity / mutation (`paymentData = { ...data }` followed by
  `paymentData.amount = …`) is modelled with an explicit heap of
  `PaymentData` cells, addressed by list position.
-/

namespace CuboClient

/-- `interface PaymentData` of `cuboClient.ts`: the typed fields plus the
open bag of additional fields (`[key: string]: any`), kept as ordered
key/value pairs. -/
structure PaymentData where
  clientName : String := ""
  clientEmail : String := ""
  clientPhone : String := ""
  description : String := ""
  amount : ℚ := 0
  cardHolder : String := ""
  cardNumber : String := ""
  cvv : String := ""
  month : String := ""
  year : String := ""
  extra : List (String × String) := []
  deriving DecidableEq

/-- `interface ApiResponse` of `cuboClient.ts`; every field is optional.
The `details` field holds an arbitrary JSON value in the source (`any`);
it is kept as a raw string here. -/
structure ApiResponse where
  status : Option String := none
  referenceId : Option String := none
  authorizationCode : Option String := none
  processedAt : Option String := none
  statusCode : Option Nat := none
  message : Option String := none
  error : Option String := none
  details : Option String := none
  deriving DecidableEq

/-- `interface ProcessedResponse` of `cuboClient.ts`. -/
structure ProcessedResponse where
  success : Bool
  message : Option String := none
  reference_id : Option String := none
  authorization_code : Option String := none
  processed_at : Option String := none
  deriving DecidableEq

/-- `interface TestResult` of `cuboClient.ts`. -/
structure TestResult where
  url : String
  response : Option ApiResponse := none
  result : Option ProcessedResponse := none
  error : Option String := none
  deriving DecidableEq

/-- JS truthiness of a `string | undefined` value: `undefined` and the empty
string are falsy, every other string is truthy. -/
def truthy : Option String → Bool
  | none => false
  | some s => !(s == "")

/-- JS `a || b` on a `string | undefined` left operand with a string default:
yields `a` when `a` is truthy, else `b`. -/
def strOr (a : Option String) (b : String) : String :=
  match a with
  | none => b
  | some s => if s == "" then b else s

/-- JS `Math.round`: round to the nearest integer, halves toward `+∞`. -/
def jsRound (q : ℚ) : ℤ := ⌊q + 1 / 2⌋

/-- `CuboClient.convertCentv` (line 69): `Math.round(amount * 100)`. -/
def convertCentv (amount : ℚ) : ℚ := ((jsRound (amount * 100) : ℤ) : ℚ)

/-- `CuboClient.handleResponse` (lines 145–168), translated branch by
branch.  `if (response.error)` is a truthiness test, `response.status ===
"SUCCEEDED"` is strict equality, and the failure message is
`response.message || "Error desconocido"`. -/
def handleResponse (response : ApiResponse) : ProcessedResponse :=
  if truthy response.error then
    { success := false
      message := response.error }
  else
    if response.status = some "SUCCEEDED" then
      { success := true
        reference_id := response.referenceId
        authorization_code := response.authorizationCode
        processed_at := response.processedAt }
    else
      { success := false
        message := some (strOr response.message "Error desconocido") }

/-- The amount auto-detection step of `pay` (lines 95–100): a finite numeric
amount with `amount % 1 !== 0` (i.e. a non-integral rational, `den ≠ 1`) is
converted through `convertCentv`, an integral one is left unchanged. -/
def normalizeAmount (a : ℚ) : ℚ :=
  if a.den ≠ 1 then convertCentv a else a

/-- The payload `pay` ends up posting: the (copied or freshly parsed)
payment data with the amount auto-detection applied to its `amount` field,
all other fields untouched. -/
def normalizePayload (d : PaymentData) : PaymentData :=
  { d with amount := normalizeAmount d.amount }

/-- The argument of `pay`: `PaymentData | string`. -/
inductive PayInput where
  | str (s : String)
  | obj (d : PaymentData)

/-- The possible outcomes of the `axios.post` call inside `pay`, as `pay`'s
`catch` block distinguishes them: a 2xx response with a body, a non-2xx
response (`axiosError.response` set) with a status code and a raw body, a
request sent but never answered (`axiosError.request` set), or a failure to
set the request up at all. -/
inductive HttpOutcome where
  | ok (body : ApiResponse)
  | badStatus (statusCode : Nat) (body : String)
  | noResponse
  | setupFailure (msg : String)

/-- The literal error message of `pay` for a string input that is not valid
JSON (line 88). -/
def invalidJsonMsg : String := "Los datos proporcionados no son un JSON válido"

/-- The literal error message of `pay` when no response was received
(line 131). -/
def noResponseMsg : String := "No se recibió respuesta del servidor"

/-- The HTTP stage of `pay` (lines 102–137): post the payload and map the
transport outcome to an `ApiResponse`.  Returns the posted payload alongside
so that the outgoing request is observable. -/
def paySend (transport : PaymentData → HttpOutcome) (payload : PaymentData) :
    ApiResponse × Option PaymentData :=
  match transport payload with
  | .ok body => (body, some payload)
  | .badStatus statusCode body =>
      ({ error := some ("Error del servidor: " ++ toString statusCode)
         details := some body }, some payload)
  | .noResponse => ({ error := some noResponseMsg }, some payload)
  | .setupFailure msg =>
      ({ error := some ("Error de conexión: " ++ msg) }, some payload)

/-- `CuboClient.pay` (lines 78–138).  `parse` is the `JSON.parse` oracle
(`none` = the string throws on decoding), `transport` the `axios.post`
oracle.  A string input is decoded (returning the invalid-JSON error value
on failure, with no request attempted); an object input is shallow-copied;
the amount auto-detection is applied; the payload is posted.  The second
component is the payload actually posted, `none` when no request was
attempted. -/
def pay (parse : String → Option PaymentData)
    (transport : PaymentData → HttpOutcome) :
    PayInput → ApiResponse × Option PaymentData
  | .str s =>
      match parse s with
      | none => ({ error := some invalidJsonMsg }, none)
      | some d => paySend transport (normalizePayload d)
  | .obj d => paySend transport (normalizePayload d)

/-- `CuboClient.testMultipleUrls` (lines 176–208), its `for` loop written as
recursion over the URL list.  `attempt url` is the outcome of
`await client.pay(data)` for the fresh client built on `url`: `.ok` a
returned `ApiResponse`, `.error` a thrown error's message (the `catch`
branch).  `handleResponse` as embedded is total, so the `try` block's only
throw site is the `pay` call.  The fixed 1-second pause between probes is a
pure delay with no effect on the returned list and is not modelled. -/
def testMultipleUrls (attempt : String → Except String ApiResponse) :
    List String → List TestResult
  | [] => []
  | url :: rest =>
      (match attempt url with
       | .ok resp =>
           { url := url
             response := some resp
             result := some (handleResponse resp) }
       | .error msg => { url := url, error := some msg }) ::
        testMultipleUrls attempt rest

/-- Heap write at an address: the JS assignment `h[r].field = …`, applied as
a whole-cell update function.  Out-of-range addresses leave the heap
unchanged. -/
def heapWrite : List PaymentData → Nat → (PaymentData → PaymentData) → List PaymentData
  | [], _, _ => []
  | d :: rest, 0, f => f d :: rest
  | d :: rest, Nat.succ n, f => d :: heapWrite rest n f

/-- The object-handling steps of `pay` for an object input, on an explicit
heap of `PaymentData` cells: `paymentData = { ...data }` (line 91) allocates
a fresh cell holding a copy of the caller's cell `r`, and the amount
auto-detection (lines 95–100) then writes only that fresh cell.  Returns the
new heap together with the address of `pay`'s local payload. -/
def payObjectStep (h : List PaymentData) (r : Fin h.length) :
    List PaymentData × Nat :=
  let h1 := h ++ [h.get r]
  let r1 := h.length
  (heapWrite h1 r1 (fun d => { d with amount := normalizeAmount d.amount }), r1)

/-! ### Claims about `handleResponse` -/

/-- C1 counterexample: `error` set (to `""`) and `status = "SUCCEEDED"`, yet
`handleResponse` takes the success branch, because `if (response.error)`
tests truthiness and the empty string is falsy; the claimed result
`{ success: false, message: response.error }` is not returned. -/
theorem handleResponse_error_empty_counterexample :
    handleResponse { error := some "", status := some "SUCCEEDED" } =
      { success := true } ∧
    ({ success := true } : ProcessedResponse) ≠
      { success := false, message := some "" } := by
  constructor <;> decide

/-- C1 (amended): for every `ApiResponse` whose `error` field is set to a
nonempty string, `handleResponse` returns
`{ success := false, message := response.error }`, regardless of any other
fields present — in particular even when `status = "SUCCEEDED"`; rule 1
takes precedence over rule 2. -/
theorem handleResponse_error_precedence (r : ApiResponse) (e : String)
    (he : r.error = some e) (hne : e ≠ "") :
    handleResponse r = { success := false, message := some e } := by
  unfold handleResponse
  rw [he]
  simp [truthy, hne]

/-- C1 witness: the spec's own example, with a conflicting
`status = "SUCCEEDED"` present. -/
theorem handleResponse_error_precedence_witness :
    handleResponse { error := some "x", status := some "SUCCEEDED" } =
      { success := false, message := some "x" } :=
  handleResponse_error_precedence _ "x" rfl (by decide)

/-- C2: for every `ApiResponse` without an `error` field and with
`status = "SUCCEEDED"`, `handleResponse` returns `success := true` with the
`referenceId`, `authorizationCode` and `processedAt` fields carried over,
and no `message` field. -/
theorem handleResponse_succeeded (r : ApiResponse)
    (he : r.error = none) (hs : r.status = some "SUCCEEDED") :
    handleResponse r =
      { success := true
        message := none
        reference_id := r.referenceId
        authorization_code := r.authorizationCode
        processed_at := r.processedAt } := by
  unfold handleResponse
  rw [he, hs]
  simp [truthy]

/-- C2 witness: the spec's example. -/
theorem handleResponse_succeeded_witness :
    handleResponse
        { status := some "SUCCEEDED", referenceId := some "r1"
          authorizationCode := some "a1", processedAt := some "t1" } =
      { success := true, reference_id := some "r1"
        authorization_code := some "a1", processed_at := some "t1" } :=
  handleResponse_succeeded _ rfl rfl

/-- C3 counterexample: at the spec's own example input
`{ status: "FAILED" }` (no message), the code returns the Spanish default
message `"Error desconocido"`, not the claimed string `"Unknown error"`. -/
theorem handleResponse_default_message_counterexample :
    handleResponse { status := some "FAILED" } =
      { success := false, message := some "Error desconocido" } ∧
    ({ success := false, message := some "Error desconocido" } : ProcessedResponse) ≠
      { success := false, message := some "Unknown error" } := by
  constructor <;> decide

/-- C3 (amended): for every `ApiResponse` without an `error` field and whose
`status` is not `"SUCCEEDED"`, `handleResponse` returns
`{ success := false, message := response.message || "Error desconocido" }`:
the fallback string is the code's literal `"Error desconocido"`, and it is
used not only when `message` is absent but also when `message` is the empty
string (`||` tests truthiness, not nullishness); a nonempty `message` is
returned as is. -/
theorem handleResponse_failure_message (r : ApiResponse)
    (he : r.error = none) (hs : r.status ≠ some "SUCCEEDED") :
    handleResponse r =
      { success := false, message := some (strOr r.message "Error desconocido") } ∧
    (r.message = none → strOr r.message "Error desconocido" = "Error desconocido") ∧
    (r.message = some "" → strOr r.message "Error desconocido" = "Error desconocido") ∧
    (∀ m, r.message = some m → m ≠ "" → strOr r.message "Error desconocido" = m) := by
  refine ⟨?_, ?_, ?_, ?_⟩
  · unfold handleResponse
    rw [he]
    simp [truthy, hs]
  · intro hm
    rw [hm]
    rfl
  · intro hm
    rw [hm]
    rfl
  · intro m hm hne
    rw [hm]
    simp [strOr, hne]

/-- C3 witness: a failed response with a nonempty message keeps its
message. -/
theorem handleResponse_failure_message_witness :
    handleResponse { status := some "FAILED", message := some "declined" } =
      { success := false, message := some "declined" } := by
  have h := handleResponse_failure_message
    { status := some "FAILED", message := some "declined" } rfl (by decide)
  rw [h.1, h.2.2.2 "declined" rfl (by decide)]

/-! ### Claims about the amount conversion -/

/-- A rational is integral exactly when its reduced denominator is `1`;
bridges the code's test `amount % 1 !== 0` (embedded as `den ≠ 1`) with the
spec's "nonzero fractional part". -/
theorem den_one_iff_intCast (a : ℚ) : a.den = 1 ↔ ∃ n : ℤ, a = (n : ℚ) := by
  constructor
  · intro h
    exact ⟨a.num, ((Rat.den_eq_one_iff a).mp h).symm⟩
  · rintro ⟨n, rfl⟩
    exact Rat.den_intCast n

/-- C4: `convertCentv a` is an integer within `1/2` of `a * 100` — it rounds
`a * 100` to the nearest integer — and in particular maps `1.00` to `100`
and `19.999` to `2000`. -/
theorem convertCentv_rounds_to_nearest :
    (∀ a : ℚ, ∃ n : ℤ, convertCentv a = (n : ℚ) ∧ |a * 100 - (n : ℚ)| ≤ 1 / 2) ∧
    convertCentv 1 = 100 ∧ convertCentv (19999 / 1000) = 2000 := by
  refine ⟨fun a => ⟨jsRound (a * 100), rfl, ?_⟩,
    by norm_num [convertCentv, jsRound], by norm_num [convertCentv, jsRound]⟩
  rw [jsRound, ← round_eq]
  exact abs_sub_round (a * 100)

/-- C10: the amount auto-detection step of `pay` is idempotent — its result
is always an integer, so normalizing an already-normalized amount changes
nothing. -/
theorem normalizeAmount_idempotent (a : ℚ) :
    (∃ n : ℤ, normalizeAmount a = (n : ℚ)) ∧
    normalizeAmount (normalizeAmount a) = normalizeAmount a := by
  by_cases h : a.den = 1
  · refine ⟨⟨a.num, ?_⟩, by simp [normalizeAmount, h]⟩
    rw [normalizeAmount, if_neg (by simp [h])]
    exact ((Rat.den_eq_one_iff a).mp h).symm
  · have h1 : normalizeAmount a = convertCentv a := by simp [normalizeAmount, h]
    have h2 : (convertCentv a).den = 1 := Rat.den_intCast _
    exact ⟨⟨jsRound (a * 100), by rw [h1]; rfl⟩, by rw [h1]; simp [normalizeAmount, h2]⟩

/-- C5: for an object input, `pay` posts exactly `normalizePayload d`; the
posted amount is `convertCentv d.amount` when `d.amount` has a nonzero
fractional part and `d.amount` itself when it is integral (in which case the
whole payload is unchanged), and every other field of the payload is posted
unmodified. -/
theorem pay_amount_autodetect (parse : String → Option PaymentData)
    (transport : PaymentData → HttpOutcome) (d : PaymentData) :
    (pay parse transport (.obj d)).2 = some (normalizePayload d) ∧
    ((¬ ∃ n : ℤ, d.amount = (n : ℚ)) →
      (normalizePayload d).amount = convertCentv d.amount) ∧
    ((∃ n : ℤ, d.amount = (n : ℚ)) → normalizePayload d = d) ∧
    (normalizePayload d).clientName = d.clientName ∧
    (normalizePayload d).clientEmail = d.clientEmail ∧
    (normalizePayload d).clientPhone = d.clientPhone ∧
    (normalizePayload d).description = d.description ∧
    (normalizePayload d).cardHolder = d.cardHolder ∧
    (normalizePayload d).cardNumber = d.cardNumber ∧
    (normalizePayload d).cvv = d.cvv ∧
    (normalizePayload d).month = d.month ∧
    (normalizePayload d).year = d.year ∧
    (normalizePayload d).extra = d.extra := by
  refine ⟨?_, ?_, ?_, rfl, rfl, rfl, rfl, rfl, rfl, rfl, rfl, rfl, rfl⟩
  · show (paySend transport (normalizePayload d)).2 = some (normalizePayload d)
    cases h : transport (normalizePayload d) <;> simp [paySend, h]
  · intro hfrac
    have hden : d.amount.den ≠ 1 := fun h1 => hfrac ((den_one_iff_intCast _).mp h1)
    simp [normalizePayload, normalizeAmount, hden]
  · intro hint
    have hden : d.amount.den = 1 := (den_one_iff_intCast _).mpr hint
    simp [normalizePayload, normalizeAmount, hden]

/-- C5 witness: the spec's examples — `10.5` is posted as `1050`, `100` is
posted unchanged. -/
theorem pay_amount_autodetect_witness :
    (normalizePayload { amount := 21 / 2 }).amount = 1050 ∧
    normalizePayload { amount := 100 } = { amount := 100 } := by
  constructor
  · have hfrac : ¬ ∃ n : ℤ, ((21 : ℚ) / 2) = (n : ℚ) := by
      rintro ⟨n, hn⟩
      have h1 : ((21 : ℚ) / 2).den = 1 := (den_one_iff_intCast _).mpr ⟨n, hn⟩
      norm_num [Rat.den] at h1
    have h := (pay_amount_autodetect (fun _ => none) (fun _ => .noResponse)
      { amount := 21 / 2 }).2.1 hfrac
    rw [h]
    show convertCentv (21 / 2) = 1050
    norm_num [convertCentv, jsRound]
  · exact (pay_amount_autodetect (fun _ => none) (fun _ => .noResponse)
      { amount := 100 }).2.2.1 ⟨100, by norm_num⟩

/-! ### Claims about `pay`'s error handling -/

/-- C6: for every string input on which the JSON decoder fails, `pay`
returns (it does not throw — in this embedding `pay` is a total function)
the invalid-JSON error value, and no HTTP request is attempted (the posted
payload is `none`, for every transport). -/
theorem pay_invalid_json (parse : String → Option PaymentData)
    (transport : PaymentData → HttpOutcome) (s : String)
    (h : parse s = none) :
    pay parse transport (.str s) = ({ error := some invalidJsonMsg }, none) := by
  simp only [pay]
  rw [h]

/-- C6 witness: the spec's example `pay("not json")` with a decoder that
rejects every string. -/
theorem pay_invalid_json_witness :
    pay (fun _ => none) (fun _ => .noResponse) (.str "not json") =
      ({ error := some invalidJsonMsg }, none) :=
  pay_invalid_json (fun _ => none) (fun _ => .noResponse) "not json" rfl

/-- C7 counterexample: on a non-2xx response with status `500`, the error
string the code builds is the Spanish `"Error del servidor: 500"`, not the
claimed `"Server error: 500"`. -/
theorem pay_server_error_counterexample :
    (pay (fun _ => none) (fun _ => .badStatus 500 "body")
        (.obj { amount := 0 })).1.error = some "Error del servidor: 500" ∧
    some "Error del servidor: 500" ≠ some "Server error: 500" := by
  constructor
  · rfl
  · decide

/-- C7 (amended): for every HTTP response with a status code outside the 2xx
range (the `axiosError.response` branch), `pay` returns
`{ error := "Error del servidor: <status code>", details := <response
body> }`, where `<status code>` is the numeric status received; the string
is the code's literal Spanish `"Error del servidor: "` prefix. -/
theorem pay_server_error (parse : String → Option PaymentData)
    (transport : PaymentData → HttpOutcome) (d : PaymentData)
    (st : Nat) (body : String)
    (h : transport (normalizePayload d) = .badStatus st body) :
    (pay parse transport (.obj d)).1 =
      { error := some ("Error del servidor: " ++ toString st)
        details := some body } := by
  show (paySend transport (normalizePayload d)).1 = _
  unfold paySend
  rw [h]

/-- C7 witness: a 404 with body `"nf"`. -/
theorem pay_server_error_witness :
    (pay (fun _ => none) (fun _ => .badStatus 404 "nf")
        (.obj { amount := 0 })).1 =
      { error := some "Error del servidor: 404", details := some "nf" } :=
  (pay_server_error (fun _ => none) (fun _ => .badStatus 404 "nf")
    { amount := 0 } 404 "nf" rfl).trans (by decide)

/-! ### The frame claim -/

/-- Writing at one heap address leaves every other address unchanged. -/
theorem heapWrite_getElem_ne (l : List PaymentData) (n m : Nat)
    (f : PaymentData → PaymentData) (h : m ≠ n) :
    (heapWrite l n f)[m]? = l[m]? := by
  induction l generalizing n m with
  | nil => rfl
  | cons d rest ih =>
    cases n with
    | zero =>
      cases m with
      | zero => exact absurd rfl h
      | succ m => simp [heapWrite]
    | succ n =>
      cases m with
      | zero => simp [heapWrite]
      | succ m => simpa [heapWrite] using ih n m (fun hh => h (by rw [hh]))

/-- Writing at a heap address applies the update there. -/
theorem heapWrite_getElem_eq (l : List PaymentData) (n : Nat)
    (f : PaymentData → PaymentData) :
    (heapWrite l n f)[n]? = Option.map f l[n]? := by
  induction l generalizing n with
  | nil => rfl
  | cons d rest ih =>
    cases n with
    | zero => simp [heapWrite]
    | succ n => simpa [heapWrite] using ih n

/-- C8: after the object-handling steps of `pay` (spread copy, then amount
auto-detection on the copy), the caller's cell still holds its original
value, and `pay`'s local payload cell holds the normalized copy: the amount
adjustment is applied only to the copy. -/
theorem pay_does_not_mutate_caller (h : List PaymentData) (r : Fin h.length) :
    ((payObjectStep h r).1)[(r : Nat)]? = some (h.get r) ∧
    ((payObjectStep h r).1)[(payObjectStep h r).2]? =
      some (normalizePayload (h.get r)) := by
  constructor
  · show (heapWrite (h ++ [h.get r]) h.length _)[(r : Nat)]? = _
    rw [heapWrite_getElem_ne _ _ _ _ (Nat.ne_of_lt r.isLt),
      List.getElem?_append_left r.isLt]
    simp [List.getElem?_eq_getElem r.isLt, List.get_eq_getElem]
  · show (heapWrite (h ++ [h.get r]) h.length _)[h.length]? = _
    rw [heapWrite_getElem_eq, List.getElem?_concat_length]
    rfl

/-! ### The probing claim -/

/-- C9: `testMultipleUrls` yields exactly one `TestResult` per URL, in input
order; the outcome at position `i` is determined by the attempt on the
`i`-th URL alone — a thrown error is recorded as that URL's `error` string,
a returned response is recorded together with its `handleResponse` result —
so earlier failures never prevent later URLs from being probed. -/
theorem testMultipleUrls_probes_all (attempt : String → Except String ApiResponse)
    (urls : List String) (i : Nat) (hi : i < urls.length) :
    (testMultipleUrls attempt urls).length = urls.length ∧
    ∃ o u, urls[i]? = some u ∧
      (testMultipleUrls attempt urls)[i]? = some o ∧
      o.url = u ∧
      (∀ msg, attempt u = .error msg → o = { url := u, error := some msg }) ∧
      (∀ resp, attempt u = .ok resp →
        o = { url := u, response := some resp
              result := some (handleResponse resp) }) := by
  refine ⟨?_, ?_⟩
  · clear hi
    induction urls with
    | nil => rfl
    | cons url rest ih => simp [testMultipleUrls, ih]
  · induction urls generalizing i with
    | nil => exact absurd hi (by simp)
    | cons url rest ih =>
      cases i with
      | zero =>
        cases h : attempt url with
        | ok resp =>
          refine ⟨{ url := url, response := some resp
                    result := some (handleResponse resp) }, url, by simp,
            by simp [testMultipleUrls, h], rfl, ?_, ?_⟩
          · intro msg hmsg
            rw [h] at hmsg
            cases hmsg
          · intro r hr
            rw [h] at hr
            injection hr with hh
            rw [hh]
        | error msg =>
          refine ⟨{ url := url, error := some msg }, url, by simp,
            by simp [testMultipleUrls, h], rfl, ?_, ?_⟩
          · intro m hm
            rw [h] at hm
            injection hm with hh
            rw [hh]
          · intro r hr
            rw [h] at hr
            cases hr
      | succ i =>
        have hi2 : i < rest.length := by simpa using hi
        obtain ⟨o, u, h1, h2, h3, h4, h5⟩ := ih i hi2
        exact ⟨o, u, by simpa using h1,
          by simpa [testMultipleUrls] using h2, h3, h4, h5⟩

/-- C9 witness: two URLs, the first throwing and the second answering; the
second probe still happens and records the success outcome. -/
theorem testMultipleUrls_probes_all_witness :
    (testMultipleUrls
        (fun u : String => if u = "a" then Except.error "boom"
          else Except.ok { status := some "SUCCEEDED" }) ["a", "b"])[1]? =
      some { url := "b", response := some { status := some "SUCCEEDED" }
             result := some { success := true } } := by
  obtain ⟨o, u, h1, h2, h3, h4, h5⟩ :=
    (testMultipleUrls_probes_all
      (fun u : String => if u = "a" then Except.error "boom"
        else Except.ok { status := some "SUCCEEDED" }) ["a", "b"] 1
      (by decide)).2
  have hu : u = "b" := by
    injection h1 with hh
    exact hh.symm
  subst hu
  rw [h2, h5 { status := some "SUCCEEDED" } rfl]
  decide

end CuboClient
